import Mathlib

/-!
Verification of the chatstack library (src/chatstack/chatstack.py and
src/chatstack/pricing.py) against its natural-language specification.

The Python code is shallowly embedded: the tokenizer (`tiktoken` encoder) is an
external collaborator and is modelled as an arbitrary function `enc : String → Nat`
giving the length of `encoder.encode(text)`; message classes become a structure
carrying the fields the code reads; the mutable session object `ChatContext`
becomes a structure threaded explicitly; fallible constructors and the pricing
function return `Except`; the streaming generator becomes the list of events it
produces (each yield paired with the session history as it stands at that yield,
and a raised exception recorded with the history at raise time); the remote
completion text is an oracle argument.
-/

namespace Chatstack

/-- Embeds `ChatRoleMessage` (chatstack.py lines 14-27) and its subclasses.
The `pfx` field models the `prefix` attribute that only `ContextMessage`
carries (`none` for plain system/user/assistant turns).  `tokens` is the
token count computed once at construction by the `compute_tokens` validator. -/
structure ChatRoleMessage where
  role : String
  pfx : Option String
  text : String
  tokens : Nat
deriving DecidableEq

/-- Embeds `content()`: the literal text sent to the model — `text` for plain
turns, and the prefixed form for `ContextMessage` (chatstack.py lines 19-20, 44-45). -/
def ChatRoleMessage.content (m : ChatRoleMessage) : String :=
  match m.pfx with
  | none => m.text
  | some p => p ++ ": " ++ m.text

/-- Embeds the `compute_tokens` validator (chatstack.py lines 22-27):
`tokens = len(encoder.encode(f"{role}\n{text}")) + 4`, with `enc` standing for
`len ∘ encoder.encode`. -/
def compute_tokens (enc : String → Nat) (role text : String) : Nat :=
  enc (role ++ "\n" ++ text) + 4

/-- Embeds construction of `SystemMessage` (chatstack.py lines 30-32). -/
def mkSystemMessage (enc : String → Nat) (text : String) : ChatRoleMessage :=
  { role := "system", pfx := none, text := text, tokens := compute_tokens enc "system" text }

/-- Embeds construction of `UserMessage` (chatstack.py lines 59-61). -/
def mkUserMessage (enc : String → Nat) (text : String) : ChatRoleMessage :=
  { role := "user", pfx := none, text := text, tokens := compute_tokens enc "user" text }

/-- Embeds construction of `AssistantMessage` (chatstack.py lines 55-57). -/
def mkAssistantMessage (enc : String → Nat) (text : String) : ChatRoleMessage :=
  { role := "assistant", pfx := none, text := text, tokens := compute_tokens enc "assistant" text }

/-- Embeds construction of `ContextMessage` (chatstack.py lines 34-52): its
overriding `compute_tokens` validator uses `f"{role}\n{prefix}: {text}"`. -/
def mkContextMessage (enc : String → Nat) (pfx text : String) : ChatRoleMessage :=
  { role := "system", pfx := some pfx, text := text,
    tokens := compute_tokens enc "system" (pfx ++ ": " ++ text) }

/-- Embeds `ChatResponse` (chatstack.py lines 64-77).  Dollar amounts and the
temperature are modelled as exact rationals. -/
structure ChatResponse where
  text : String
  delta : Option String
  model : String
  temperature : ℚ
  inputs : List ChatRoleMessage
  input_tokens : Nat
  response_tokens : Nat
  price : ℚ
deriving DecidableEq

/-- Embeds `price` (pricing.py lines 4-13).  `0.002`, `0.03`, `0.06` become the
exact rationals `2/1000`, `3/100`, `6/100`; an unsupported model raises
`ValueError`, modelled as `Except.error`. -/
def price (model : String) (input_tokens output_tokens : Nat) : Except String ℚ :=
  if model ∈ (["gpt-3.5-turbo", "gpt-3.5"] : List String) then
    Except.ok (2 / 1000 * ((input_tokens : ℚ) + (output_tokens : ℚ)) / 1000)
  else if model = "gpt-4" then
    Except.ok ((3 / 100 * (input_tokens : ℚ) + 6 / 100 * (output_tokens : ℚ)) / 1000)
  else
    Except.error ("model " ++ model ++ " not supported")

/-- Embeds `GPT3_MODELS` (chatstack.py line 80). -/
def GPT3_MODELS : List String := ["gpt-3.5-turbo", "gpt-3.5-turbo-0301"]

/-- Embeds `GPT4_MODELS` (chatstack.py line 81). -/
def GPT4_MODELS : List String := ["gpt-4", "gpt-4-0314"]

/-- Embeds the state of a `ChatContext` session object (chatstack.py lines 83-105).
`messages` is the conversation history in reverse chronological order, newest first. -/
structure ChatContext where
  model : String
  temperature : ℚ
  base_system_msg : ChatRoleMessage
  max_model_context : Int
  min_response_tokens : Int
  max_response_tokens : Option Int
  chat_context_messages : Nat
  messages : List ChatRoleMessage
deriving DecidableEq

/-- Embeds `ChatContext.__init__` (chatstack.py lines 85-105): the maximum model
context is 4096 for `GPT3_MODELS`, 8192 for `GPT4_MODELS`, and any other model
raises `ValueError` (no session object is produced).  The error text carries the
same information as the Python f-string without reproducing the list repr. -/
def ChatContext.init (enc : String → Nat) (base_system_msg_text : String)
    (min_response_tokens : Int) (max_response_tokens : Option Int)
    (chat_context_messages : Nat) (model : String) (temperature : ℚ) :
    Except String ChatContext :=
  let base_system_msg := mkSystemMessage enc base_system_msg_text
  if model ∈ GPT3_MODELS then
    Except.ok { model := model, temperature := temperature,
                base_system_msg := base_system_msg, max_model_context := 4096,
                min_response_tokens := min_response_tokens,
                max_response_tokens := max_response_tokens,
                chat_context_messages := chat_context_messages, messages := [] }
  else if model ∈ GPT4_MODELS then
    Except.ok { model := model, temperature := temperature,
                base_system_msg := base_system_msg, max_model_context := 8192,
                min_response_tokens := min_response_tokens,
                max_response_tokens := max_response_tokens,
                chat_context_messages := chat_context_messages, messages := [] }
  else
    Except.error ("Model " ++ model ++ " not supported. Supported models are " ++
      String.intercalate ", " GPT3_MODELS ++ " and " ++ String.intercalate ", " GPT4_MODELS)

/-- Sum of the `tokens` fields of a message list. -/
def sumTokens (msgs : List ChatRoleMessage) : Nat :=
  (msgs.map (fun m => m.tokens)).sum

/-- Embeds the dynamic-context loop of `_assemble_completion_msgs`
(chatstack.py lines 132-138): walk `dynamic_context` in order, breaking at the
first message whose `tokens` exceeds the remaining budget, otherwise appending
it and decrementing the budget. -/
def assembleLoopDyn (max_dynamic_context : Int) : List ChatRoleMessage → List ChatRoleMessage
  | [] => []
  | msg :: rest =>
    if (msg.tokens : Int) > max_dynamic_context then []
    else msg :: assembleLoopDyn (max_dynamic_context - (msg.tokens : Int)) rest

/-- Embeds `_assemble_completion_msgs` (chatstack.py lines 108-146).
`self.messages[:self.chat_context_messages]` is `List.take`; the slice is a
copy, so its in-place `reverse()` is `List.reverse` of the copy.  A `None`
`dynamic_context` is passed as `[]` (line 133 normalises it the same way). -/
def assemble_completion_msgs (ctx : ChatContext) (dynamic_context : List ChatRoleMessage) :
    List ChatRoleMessage :=
  let max_input_context : Int := ctx.max_model_context - ctx.min_response_tokens
  let chat_slice := ctx.messages.take ctx.chat_context_messages
  let chat_tokens : Nat := sumTokens chat_slice
  let chat_messages := chat_slice.reverse
  let max_dynamic_context : Int :=
    max_input_context - (chat_tokens : Int) - (ctx.base_system_msg.tokens : Int)
  let dynamic_context_messages := assembleLoopDyn max_dynamic_context dynamic_context
  [ctx.base_system_msg] ++ dynamic_context_messages ++ chat_messages

/-- Embeds `user_message` (chatstack.py lines 178-196).  The remote completion
text is the oracle argument `response_text`.  The returned `ChatContext` is the
session state after the call: the user turn is inserted before assembly and the
assistant turn before the price computation, so both are present even when
`price` raises (`Except.error`). -/
def user_message (enc : String → Nat) (ctx : ChatContext) (msg_text : String)
    (dynamic_context : List ChatRoleMessage) (response_text : String) :
    ChatContext × Except String ChatResponse :=
  let msg := mkUserMessage enc msg_text
  let ctx1 := { ctx with messages := msg :: ctx.messages }
  let completion_msgs := assemble_completion_msgs ctx1 dynamic_context
  let response_msg := mkAssistantMessage enc response_text
  let ctx2 := { ctx1 with messages := response_msg :: ctx1.messages }
  let input_tokens := sumTokens completion_msgs + 2
  match price ctx.model input_tokens response_msg.tokens with
  | Except.ok p =>
      (ctx2, Except.ok { text := response_text, delta := none, model := ctx.model,
                         temperature := ctx.temperature, inputs := completion_msgs,
                         input_tokens := input_tokens,
                         response_tokens := response_msg.tokens, price := p })
  | Except.error e => (ctx2, Except.error e)

/-- Observable event of the streaming generator `_completion_stream`: each
`yield` is recorded together with the session history (`self.messages`) as it
stands at that yield, and an exception escaping the generator is recorded with
the history at raise time. -/
inductive StreamEvent where
  | yielded (cr : ChatResponse) (history : List ChatRoleMessage)
  | raised (err : String) (history : List ChatRoleMessage)
deriving DecidableEq

/-- Embeds the chunk loop of `_completion_stream` (chatstack.py lines 221-226):
each chunk content `output` is skipped when empty, otherwise `cr.delta` is set
to it, it is appended to `cr.text`, and the updated `cr` is yielded (the
history is untouched inside the loop).  Returns the final `cr` and the yields. -/
def streamLoop (history : List ChatRoleMessage) (cr : ChatResponse) :
    List String → ChatResponse × List StreamEvent
  | [] => (cr, [])
  | output :: rest =>
    if output = "" then streamLoop history cr rest
    else
      let cr2 := { cr with delta := some output, text := cr.text ++ output }
      let res := streamLoop history cr2 rest
      (res.1, StreamEvent.yielded cr2 history :: res.2)

/-- Embeds the `ChatResponse` constructed at the top of `_completion_stream`
(chatstack.py lines 206-213): empty text and delta, `input_tokens` already the
sum over the inputs plus the 2-token per-request overhead. -/
def initialCR (ctx : ChatContext) (msgs : List ChatRoleMessage) : ChatResponse :=
  { text := "", delta := some "", model := ctx.model, temperature := ctx.temperature,
    inputs := msgs, input_tokens := sumTokens msgs + 2, response_tokens := 0, price := 0 }

/-- Embeds the tail of `_completion_stream` (chatstack.py lines 237-241), run
after the chunk loop: the assistant turn is built from the accumulated text
and inserted into the history (line 238), then `price` is computed (line 240):
on success the final `cr` is yielded (with `delta` left as the last increment),
and on a pricing failure the `ValueError` escapes with the history already
containing the assistant turn and no terminal yield. -/
def finalStreamEvent (enc : String → Nat) (ctx : ChatContext)
    (msgs : List ChatRoleMessage) (chunks : List String) : StreamEvent :=
  let res := streamLoop ctx.messages (initialCR ctx msgs) chunks
  let resp_msg := mkAssistantMessage enc res.1.text
  let messages2 := resp_msg :: ctx.messages
  match price ctx.model res.1.input_tokens resp_msg.tokens with
  | Except.ok p =>
      StreamEvent.yielded { res.1 with response_tokens := resp_msg.tokens, price := p } messages2
  | Except.error e => StreamEvent.raised e messages2

/-- Embeds `_completion_stream` (chatstack.py lines 198-241) as the list of
events it produces on a successfully opened stream whose chunk contents are
`chunks`: the increment yields of the loop followed by the terminal event. -/
def completion_stream (enc : String → Nat) (ctx : ChatContext)
    (msgs : List ChatRoleMessage) (chunks : List String) : List StreamEvent :=
  (streamLoop ctx.messages (initialCR ctx msgs) chunks).2 ++ [finalStreamEvent enc ctx msgs chunks]

/-- Embeds `user_message_stream` (chatstack.py lines 243-249): the user turn is
inserted, the completion messages assembled, and the streaming generator run. -/
def user_message_stream (enc : String → Nat) (ctx : ChatContext) (msg_text : String)
    (dynamic_context : List ChatRoleMessage) (chunks : List String) : List StreamEvent :=
  let msg := mkUserMessage enc msg_text
  let ctx1 := { ctx with messages := msg :: ctx.messages }
  let completion_msgs := assemble_completion_msgs ctx1 dynamic_context
  completion_stream enc ctx1 completion_msgs chunks

/-- Concatenation of the chunk contents of a stream, in order. -/
def streamText : List String → String
  | [] => ""
  | c :: rest => c ++ streamText rest

/-- Modelled from the spec: outcome of one attempt of the remote provider call.
The provider collaborator "raises distinguishable transient-error vs.
invalid-request-error conditions" (spec section 6): `transient` covers rate
limiting and other transport/server faults, `invalidRequest` the non-retryable
request-validity error. -/
inductive ProviderOutcome (α : Type) where
  | ok (val : α)
  | transient (err : String)
  | invalidRequest (err : String)
deriving DecidableEq

/-- Result of the retry combinator: the surfaced value or the surfaced error. -/
inductive RetryResult (α : Type) where
  | ok (val : α)
  | failed (err : String)
deriving DecidableEq

/-- Attempt ceiling of the retry combinator, from the decorator arguments
`tries=10` (chatstack.py lines 149 and 198). -/
def RETRY_TRIES : Nat := 10

/-- Delay between attempts in seconds, from the decorator arguments `delay=.05`
(chatstack.py lines 149 and 198): 50 ms, as an exact rational. -/
def RETRY_DELAY : ℚ := 5 / 100

/-- Modelled from the spec: the `retry` combinator implemented in
`src/chatstack/retry.py`, which chatstack.py imports but whose source file is
absent from the tree.  Per the spec (sections 4.4, 7 and 9): the identical
request is re-issued on a transient provider error up to a fixed attempt
ceiling with a fixed delay between attempts, after which the error is surfaced;
the designated non-retryable exception (`openai.InvalidRequestError`, the
`ExceptionToRaise` decorator argument) is surfaced immediately and never
retried.  `action k` is the outcome of attempt number `k` (0-based); the result
is `(surfaced result, number of attempts made, total delay slept)`. -/
def retryRun {α : Type} (action : Nat → ProviderOutcome α) :
    Nat → Nat → RetryResult α × Nat × ℚ
  | 0, k => (RetryResult.failed "retry attempts exhausted", k, 0)
  | fuel + 1, k =>
    match action k with
    | ProviderOutcome.ok v => (RetryResult.ok v, k + 1, 0)
    | ProviderOutcome.invalidRequest e => (RetryResult.failed e, k + 1, 0)
    | ProviderOutcome.transient e =>
      if fuel = 0 then (RetryResult.failed e, k + 1, 0)
      else
        let r := retryRun action fuel (k + 1)
        (r.1, r.2.1, RETRY_DELAY + r.2.2)

/-- Written from the spec's words (section 4.2 step 4), for comparison with the
code's loop: "Walk `dynamicContext` in caller-supplied order; admit each turn
only while its `tokenCount <= remaining dynamicBudget`; on first turn that
would overflow, stop (do not skip and try later ones).  Decrement budget by
each admitted turn's cost." -/
def specAdmitDynamic (budget : Int) : List ChatRoleMessage → List ChatRoleMessage
  | [] => []
  | m :: ms =>
    if (m.tokens : Int) ≤ budget then m :: specAdmitDynamic (budget - (m.tokens : Int)) ms
    else []

/-- State-threaded rendering of `_assemble_completion_msgs` for the mutation
claim: it returns `(result, self.messages after the call, dynamic_context after
the call)`.  The Python slice `self.messages[:n]` copies, so `chat_messages.reverse()`
mutates only the copy, and neither `self.messages` nor the caller's
`dynamic_context` list is ever written. -/
def assembleProc (ctx : ChatContext) (dynamic_context : List ChatRoleMessage) :
    List ChatRoleMessage × List ChatRoleMessage × List ChatRoleMessage :=
  let max_input_context : Int := ctx.max_model_context - ctx.min_response_tokens
  let chat_slice := ctx.messages.take ctx.chat_context_messages
  let chat_tokens : Nat := sumTokens chat_slice
  let chat_messages := chat_slice.reverse
  let max_dynamic_context : Int :=
    max_input_context - (chat_tokens : Int) - (ctx.base_system_msg.tokens : Int)
  let dynamic_context_messages := assembleLoopDyn max_dynamic_context dynamic_context
  ([ctx.base_system_msg] ++ dynamic_context_messages ++ chat_messages,
   ctx.messages, dynamic_context)

/-- Histories carried by the `yielded` events of a stream run. -/
def yieldedHistories (evs : List StreamEvent) : List (List ChatRoleMessage) :=
  evs.filterMap fun e =>
    match e with
    | StreamEvent.yielded _ h => some h
    | StreamEvent.raised _ _ => none

/-- History at the last event of a stream run: the session history as the
generator leaves it (whether it finished with the terminal yield or raised). -/
def lastEventHistory (evs : List StreamEvent) : Option (List ChatRoleMessage) :=
  evs.getLast?.map fun e =>
    match e with
    | StreamEvent.yielded _ h => h
    | StreamEvent.raised _ h => h

/-- The `delta` values of the yielded records of a stream run, in order. -/
def yieldDeltas (evs : List StreamEvent) : List String :=
  evs.filterMap fun e =>
    match e with
    | StreamEvent.yielded cr _ => cr.delta
    | StreamEvent.raised _ _ => none

/-- The `text` carried by the last yielded record of a stream run. -/
def lastYieldedText (evs : List StreamEvent) : Option String :=
  (evs.filterMap fun e =>
    match e with
    | StreamEvent.yielded cr _ => some cr.text
    | StreamEvent.raised _ _ => none).getLast?

/-- Concrete stand-in tokenizer used for evaluating the embedding on concrete
inputs: the character count of the payload.  All universally quantified
theorems hold for every `enc`; only concrete evaluations fix it. -/
def encLen : String → Nat := String.length

/-- Concrete session state used for evaluations: what `ChatContext.__init__`
produces for base system text `"s"`, the given model and
`min_response_tokens`, with the remaining constructor defaults. -/
def mkTestCtx (model : String) (minResp : Int) : ChatContext :=
  { model := model, temperature := 1 / 2, base_system_msg := mkSystemMessage encLen "s",
    max_model_context := 4096, min_response_tokens := minResp, max_response_tokens := some 400,
    chat_context_messages := 50, messages := [] }

/-- Concrete evaluation of `user_message`: default GPT-3.5 session, user text
`"hi"`, no dynamic context, completion text `"ok"`. -/
def umRes : ChatContext × Except String ChatResponse :=
  user_message encLen (mkTestCtx "gpt-3.5-turbo" 200) "hi" [] "ok"

/-- The `ChatResponse` produced by the concrete `user_message` evaluation. -/
def umCR : ChatResponse :=
  match umRes.2 with
  | Except.ok cr => cr
  | Except.error _ =>
    { text := "", delta := none, model := "", temperature := 0, inputs := [],
      input_tokens := 0, response_tokens := 0, price := 0 }

/-- Concrete provider behaviour for evaluating the retry combinator: two
rate-limit faults, then success. -/
def actionW : Nat → ProviderOutcome String := fun k =>
  if k < 2 then ProviderOutcome.transient "rate limited" else ProviderOutcome.ok "done"

/- Helper lemmas. -/

theorem sumTokens_nil : sumTokens [] = 0 := rfl

theorem sumTokens_cons (m : ChatRoleMessage) (l : List ChatRoleMessage) :
    sumTokens (m :: l) = m.tokens + sumTokens l := by
  simp [sumTokens]

theorem sumTokens_append (l₁ l₂ : List ChatRoleMessage) :
    sumTokens (l₁ ++ l₂) = sumTokens l₁ + sumTokens l₂ := by
  simp [sumTokens]

theorem sumTokens_reverse (l : List ChatRoleMessage) :
    sumTokens l.reverse = sumTokens l := by
  simp [sumTokens, List.sum_reverse]

/-- The code's dynamic-context loop (break on `tokens > budget`) computes
exactly the spec's admission rule (admit while `tokens ≤ budget`). -/
theorem assembleLoopDyn_eq_spec (budget : Int) (l : List ChatRoleMessage) :
    assembleLoopDyn budget l = specAdmitDynamic budget l := by
  induction l generalizing budget with
  | nil => rfl
  | cons m ms ih =>
    by_cases h : (m.tokens : Int) ≤ budget
    · simp [assembleLoopDyn, specAdmitDynamic, h, not_lt.mpr h, ih]
    · simp [assembleLoopDyn, specAdmitDynamic, h, lt_of_not_le h]

/-- With a negative remaining budget no dynamic context is admitted (token
counts are nonnegative). -/
theorem specAdmitDynamic_neg (budget : Int) (l : List ChatRoleMessage)
    (h : budget < 0) : specAdmitDynamic budget l = [] := by
  cases l with
  | nil => rfl
  | cons m ms =>
    have : ¬ ((m.tokens : Int) ≤ budget) := by
      intro hle
      exact absurd (lt_of_le_of_lt hle h) (not_lt.mpr (Int.natCast_nonneg _))
    simp [specAdmitDynamic, this]

/-- The admitted dynamic context never exceeds a nonnegative budget. -/
theorem assembleLoopDyn_sum_le (l : List ChatRoleMessage) (budget : Int)
    (h : 0 ≤ budget) : (sumTokens (assembleLoopDyn budget l) : Int) ≤ budget := by
  induction l generalizing budget with
  | nil => simpa [assembleLoopDyn, sumTokens_nil] using h
  | cons m ms ih =>
    by_cases hm : (m.tokens : Int) > budget
    · simpa [assembleLoopDyn, hm, sumTokens_nil] using h
    · have hle : (m.tokens : Int) ≤ budget := not_lt.mp hm
      have h2 : (0 : Int) ≤ budget - (m.tokens : Int) := by omega
      have := ih (budget - (m.tokens : Int)) h2
      simp only [assembleLoopDyn, hm, if_false, sumTokens_cons]
      push_cast
      omega

/-- Unfolding of `assemble_completion_msgs` into its three segments. -/
theorem assemble_eq (ctx : ChatContext) (dc : List ChatRoleMessage) :
    assemble_completion_msgs ctx dc =
      ctx.base_system_msg ::
        (assembleLoopDyn
          (ctx.max_model_context - ctx.min_response_tokens -
            (sumTokens (ctx.messages.take ctx.chat_context_messages) : Int) -
            (ctx.base_system_msg.tokens : Int)) dc ++
         (ctx.messages.take ctx.chat_context_messages).reverse) := rfl

/-- The chunk loop never touches the history and yields only increments whose
`input_tokens` equals that of the initial record. -/
theorem streamLoop_events (chunks : List String) (h : List ChatRoleMessage)
    (cr : ChatResponse) (e : StreamEvent) (he : e ∈ (streamLoop h cr chunks).2) :
    ∃ cr2, e = StreamEvent.yielded cr2 h ∧ cr2.input_tokens = cr.input_tokens := by
  induction chunks generalizing cr with
  | nil => simp [streamLoop] at he
  | cons c rest ih =>
    by_cases hc : c = ""
    · exact ih cr (by simpa [streamLoop, hc] using he)
    · simp only [streamLoop, hc, if_false, List.mem_cons] at he
      rcases he with he | he
      · exact ⟨_, he, rfl⟩
      · obtain ⟨cr2, h1, h2⟩ := ih _ he
        exact ⟨cr2, h1, h2⟩

/-- The final record of the chunk loop keeps the initial `input_tokens`. -/
theorem streamLoop_fst_input_tokens (chunks : List String) (h : List ChatRoleMessage)
    (cr : ChatResponse) : ((streamLoop h cr chunks).1).input_tokens = cr.input_tokens := by
  induction chunks generalizing cr with
  | nil => rfl
  | cons c rest ih =>
    by_cases hc : c = ""
    · simpa [streamLoop, hc] using ih cr
    · simpa [streamLoop, hc] using ih _

/-- The final record of the chunk loop accumulates exactly the concatenation of
the chunk contents. -/
theorem streamLoop_fst_text (chunks : List String) (h : List ChatRoleMessage)
    (cr : ChatResponse) : ((streamLoop h cr chunks).1).text = cr.text ++ streamText chunks := by
  induction chunks generalizing cr with
  | nil => simp [streamLoop, streamText]
  | cons c rest ih =>
    by_cases hc : c = ""
    · rw [streamLoop]
      simp only [hc, if_true]
      rw [ih cr, streamText]
      simp [hc]
    · rw [streamLoop]
      simp only [hc, if_false]
      rw [ih]
      simp [streamText, String.append_assoc]

/-- When pricing succeeds, the terminal event is the final yield, produced with
the history already extended by the assistant turn built from the full text. -/
theorem finalStreamEvent_ok (enc : String → Nat) (ctx : ChatContext)
    (msgs : List ChatRoleMessage) (chunks : List String) (p : ℚ)
    (hp : price ctx.model (sumTokens msgs + 2)
        (mkAssistantMessage enc (streamText chunks)).tokens = Except.ok p) :
    finalStreamEvent enc ctx msgs chunks =
      StreamEvent.yielded
        { (streamLoop ctx.messages (initialCR ctx msgs) chunks).1 with
          response_tokens := (mkAssistantMessage enc (streamText chunks)).tokens, price := p }
        (mkAssistantMessage enc (streamText chunks) :: ctx.messages) := by
  have htext : ((streamLoop ctx.messages (initialCR ctx msgs) chunks).1).text =
      streamText chunks := by
    rw [streamLoop_fst_text]
    exact String.empty_append _
  have htok : ((streamLoop ctx.messages (initialCR ctx msgs) chunks).1).input_tokens =
      sumTokens msgs + 2 := streamLoop_fst_input_tokens _ _ _
  simp only [finalStreamEvent, htext, htok, hp]

/-- When pricing fails, the generator raises after inserting the assistant
turn: the terminal event is the escaping error, with the extended history and
no terminal yield. -/
theorem finalStreamEvent_error (enc : String → Nat) (ctx : ChatContext)
    (msgs : List ChatRoleMessage) (chunks : List String) (e : String)
    (hp : price ctx.model (sumTokens msgs + 2)
        (mkAssistantMessage enc (streamText chunks)).tokens = Except.error e) :
    finalStreamEvent enc ctx msgs chunks =
      StreamEvent.raised e (mkAssistantMessage enc (streamText chunks) :: ctx.messages) := by
  have htext : ((streamLoop ctx.messages (initialCR ctx msgs) chunks).1).text =
      streamText chunks := by
    rw [streamLoop_fst_text]
    exact String.empty_append _
  have htok : ((streamLoop ctx.messages (initialCR ctx msgs) chunks).1).input_tokens =
      sumTokens msgs + 2 := streamLoop_fst_input_tokens _ _ _
  simp only [finalStreamEvent, htext, htok, hp]

/-- C1 (amended): whenever the base system message together with the selected
history slice fits the input budget `max_model_context - min_response_tokens`,
the sum of the `tokens` fields over the list returned by
`_assemble_completion_msgs` is at most that budget — the dynamic-context loop
never overdraws the remaining budget.  (The unamended universal claim fails
because the system turn and the history slice are included unconditionally;
see the counterexample.) -/
theorem C1_assembled_tokens_le_budget (ctx : ChatContext) (dc : List ChatRoleMessage)
    (h : (ctx.base_system_msg.tokens : Int) +
         (sumTokens (ctx.messages.take ctx.chat_context_messages) : Int) ≤
         ctx.max_model_context - ctx.min_response_tokens) :
    (sumTokens (assemble_completion_msgs ctx dc) : Int) ≤
      ctx.max_model_context - ctx.min_response_tokens := by
  rw [assemble_eq]
  have hb : (0 : Int) ≤ ctx.max_model_context - ctx.min_response_tokens -
      (sumTokens (ctx.messages.take ctx.chat_context_messages) : Int) -
      (ctx.base_system_msg.tokens : Int) := by omega
  have hdyn := assembleLoopDyn_sum_le dc
    (ctx.max_model_context - ctx.min_response_tokens -
      (sumTokens (ctx.messages.take ctx.chat_context_messages) : Int) -
      (ctx.base_system_msg.tokens : Int)) hb
  rw [sumTokens_cons, sumTokens_append, sumTokens_reverse]
  push_cast
  push_cast at hdyn
  omega

/-- C1 witness: a configuration satisfying the hypothesis, with the bound
holding for the assembled output. -/
theorem C1_assembled_tokens_le_budget_witness :
    (sumTokens (assemble_completion_msgs (mkTestCtx "gpt-3.5-turbo" 200) []) : Int) ≤
      (mkTestCtx "gpt-3.5-turbo" 200).max_model_context -
        (mkTestCtx "gpt-3.5-turbo" 200).min_response_tokens :=
  C1_assembled_tokens_le_budget (mkTestCtx "gpt-3.5-turbo" 200) [] (by decide)

/-- C1 counterexample: the claim as stated quantifies over every budget
configuration, but with `min_response_tokens = 4096` (a value the constructor
accepts for a GPT-3.5 model) the input budget is `4096 - 4096 = 0` and the
assembler still returns the base system message, whose token count is
positive, so the returned sum exceeds `max_model_context - min_response_tokens`
even with empty history and empty dynamic context. -/
theorem C1_counterexample :
    ChatContext.init encLen "s" 4096 (some 400) 50 "gpt-3.5-turbo" (1 / 2) =
      Except.ok (mkTestCtx "gpt-3.5-turbo" 4096)
  ∧ ¬ ((sumTokens (assemble_completion_msgs (mkTestCtx "gpt-3.5-turbo" 4096) []) : Int) ≤
       (mkTestCtx "gpt-3.5-turbo" 4096).max_model_context -
         (mkTestCtx "gpt-3.5-turbo" 4096).min_response_tokens) :=
  ⟨rfl, by decide⟩

/-- C2: the assembler's output is exactly
`[base system message] ++ admittedDynamicContext ++ historySlice`, where the
history slice is the newest `chat_context_messages` stored turns reversed to
chronological order, and the admitted dynamic context is computed by the
spec-worded greedy walk `specAdmitDynamic` (admit while the turn fits the
remaining dynamic budget, stop at the first overflow, never admit a later
turn); with a negative dynamic budget nothing is admitted. -/
theorem C2_assemble_structure (ctx : ChatContext) (dc : List ChatRoleMessage) :
    assemble_completion_msgs ctx dc =
      ctx.base_system_msg ::
        (specAdmitDynamic
          (ctx.max_model_context - ctx.min_response_tokens -
            (sumTokens (ctx.messages.take ctx.chat_context_messages) : Int) -
            (ctx.base_system_msg.tokens : Int)) dc ++
         (ctx.messages.take ctx.chat_context_messages).reverse)
  ∧ (ctx.max_model_context - ctx.min_response_tokens -
       (sumTokens (ctx.messages.take ctx.chat_context_messages) : Int) -
       (ctx.base_system_msg.tokens : Int) < 0 →
     specAdmitDynamic
       (ctx.max_model_context - ctx.min_response_tokens -
         (sumTokens (ctx.messages.take ctx.chat_context_messages) : Int) -
         (ctx.base_system_msg.tokens : Int)) dc = []) :=
  ⟨by rw [assemble_eq, assembleLoopDyn_eq_spec], fun h => specAdmitDynamic_neg _ _ h⟩

/-- C2 witness: a configuration with `min_response_tokens = 5000`, so the
dynamic budget is negative: the output is the base system message alone and no
dynamic context is admitted. -/
theorem C2_assemble_structure_witness :
    assemble_completion_msgs (mkTestCtx "gpt-3.5-turbo" 5000) [mkContextMessage encLen "p" "t"] =
      (mkTestCtx "gpt-3.5-turbo" 5000).base_system_msg ::
        (specAdmitDynamic
          ((mkTestCtx "gpt-3.5-turbo" 5000).max_model_context -
            (mkTestCtx "gpt-3.5-turbo" 5000).min_response_tokens -
            (sumTokens ((mkTestCtx "gpt-3.5-turbo" 5000).messages.take
              (mkTestCtx "gpt-3.5-turbo" 5000).chat_context_messages) : Int) -
            ((mkTestCtx "gpt-3.5-turbo" 5000).base_system_msg.tokens : Int))
          [mkContextMessage encLen "p" "t"] ++
         ((mkTestCtx "gpt-3.5-turbo" 5000).messages.take
           (mkTestCtx "gpt-3.5-turbo" 5000).chat_context_messages).reverse)
  ∧ specAdmitDynamic
      ((mkTestCtx "gpt-3.5-turbo" 5000).max_model_context -
        (mkTestCtx "gpt-3.5-turbo" 5000).min_response_tokens -
        (sumTokens ((mkTestCtx "gpt-3.5-turbo" 5000).messages.take
          (mkTestCtx "gpt-3.5-turbo" 5000).chat_context_messages) : Int) -
        ((mkTestCtx "gpt-3.5-turbo" 5000).base_system_msg.tokens : Int))
      [mkContextMessage encLen "p" "t"] = [] :=
  ⟨(C2_assemble_structure (mkTestCtx "gpt-3.5-turbo" 5000) [mkContextMessage encLen "p" "t"]).1,
   (C2_assemble_structure (mkTestCtx "gpt-3.5-turbo" 5000) [mkContextMessage encLen "p" "t"]).2
     (by decide)⟩

/-- C6 (amended): the pricing formulas hold for the model identifiers the
pricing calculator itself recognises — `gpt-3.5-turbo` and `gpt-3.5` priced at
`0.002*(input+output)/1000`, `gpt-4` at `(0.03*input + 0.06*output)/1000` — the
two particular values from the spec hold exactly, and every other identifier
(including `gpt-3.5-turbo-0301` and `gpt-4-0314`) fails with the
unsupported-model error.  The function is pure by construction in this
embedding, hence reproducible.  (The unamended claim fails because the
GPT-3.5/GPT-4 classes of the session constructor contain `gpt-3.5-turbo-0301`
and `gpt-4-0314`, which `price` rejects; see the counterexample.) -/
theorem C6_price_formulas (i o : Nat) :
    price "gpt-3.5-turbo" i o = Except.ok (2 / 1000 * ((i : ℚ) + (o : ℚ)) / 1000)
  ∧ price "gpt-3.5" i o = Except.ok (2 / 1000 * ((i : ℚ) + (o : ℚ)) / 1000)
  ∧ price "gpt-4" i o = Except.ok ((3 / 100 * (i : ℚ) + 6 / 100 * (o : ℚ)) / 1000)
  ∧ price "gpt-3.5-turbo" 1000 500 = Except.ok (3 / 1000)
  ∧ price "gpt-4" 1000 500 = Except.ok (6 / 100)
  ∧ (∀ m : String, m ∉ (["gpt-3.5-turbo", "gpt-3.5", "gpt-4"] : List String) →
      price m i o = Except.error ("model " ++ m ++ " not supported")) := by
  refine ⟨by simp [price], by simp [price], by simp [price], ?_, ?_, ?_⟩
  · have h : price "gpt-3.5-turbo" 1000 500 =
        Except.ok (2 / 1000 * (((1000 : Nat) : ℚ) + ((500 : Nat) : ℚ)) / 1000) := rfl
    rw [h]
    simp only [Except.ok.injEq]
    norm_num
  · have h : price "gpt-4" 1000 500 =
        Except.ok ((3 / 100 * ((1000 : Nat) : ℚ) + 6 / 100 * ((500 : Nat) : ℚ)) / 1000) := rfl
    rw [h]
    simp only [Except.ok.injEq]
    norm_num
  · intro m hm
    have h1 : m ∉ (["gpt-3.5-turbo", "gpt-3.5"] : List String) := by
      intro hc; apply hm; simp at hc ⊢; tauto
    have h2 : m ≠ "gpt-4" := by intro hc; apply hm; simp [hc]
    simp [price, h1, h2]

/-- C6 witness: the unsupported-model branch at the spec's own example
identifier. -/
theorem C6_price_formulas_witness :
    price "unknown-model" 1 1 = Except.error ("model unknown-model not supported") :=
  (C6_price_formulas 1 1).2.2.2.2.2 "unknown-model" (by decide)

/-- C6 counterexample: `gpt-3.5-turbo-0301` is a GPT-3.5-class identifier and
`gpt-4-0314` a GPT-4-class identifier (they are members of `GPT3_MODELS` and
`GPT4_MODELS`), yet `price` fails on both instead of returning the class
formula. -/
theorem C6_counterexample :
    "gpt-3.5-turbo-0301" ∈ GPT3_MODELS
  ∧ "gpt-4-0314" ∈ GPT4_MODELS
  ∧ price "gpt-3.5-turbo-0301" 1000 500 =
      Except.error ("model gpt-3.5-turbo-0301 not supported")
  ∧ price "gpt-4-0314" 1000 500 = Except.error ("model gpt-4-0314 not supported") :=
  ⟨by decide, by decide, rfl, rfl⟩

/-- C9: session construction derives the maximum model context from the model
identifier — 4096 tokens for the GPT-3.5-class list, 8192 for the GPT-4-class
list — and fails with an error for every other identifier, producing no
session. -/
theorem C9_max_context_by_model (enc : String → Nat) (t : String) (mrt : Int)
    (xrt : Option Int) (ccm : Nat) (model : String) (temp : ℚ) :
    (model ∈ GPT3_MODELS →
      ChatContext.init enc t mrt xrt ccm model temp =
        Except.ok { model := model, temperature := temp,
                    base_system_msg := mkSystemMessage enc t, max_model_context := 4096,
                    min_response_tokens := mrt, max_response_tokens := xrt,
                    chat_context_messages := ccm, messages := [] })
  ∧ (model ∈ GPT4_MODELS →
      ChatContext.init enc t mrt xrt ccm model temp =
        Except.ok { model := model, temperature := temp,
                    base_system_msg := mkSystemMessage enc t, max_model_context := 8192,
                    min_response_tokens := mrt, max_response_tokens := xrt,
                    chat_context_messages := ccm, messages := [] })
  ∧ (model ∉ GPT3_MODELS → model ∉ GPT4_MODELS →
      ChatContext.init enc t mrt xrt ccm model temp =
        Except.error ("Model " ++ model ++ " not supported. Supported models are " ++
          String.intercalate ", " GPT3_MODELS ++ " and " ++
          String.intercalate ", " GPT4_MODELS)) := by
  refine ⟨fun h => ?_, fun h => ?_, fun h3 h4 => ?_⟩
  · simp [ChatContext.init, h]
  · have h3 : model ∉ GPT3_MODELS := by
      simp only [GPT4_MODELS, List.mem_cons, List.not_mem_nil, or_false] at h
      rcases h with h | h <;> subst h <;> decide
    simp [ChatContext.init, h3, h]
  · simp [ChatContext.init, h3, h4]

/-- C9 witness: a supported and an unsupported identifier. -/
theorem C9_max_context_by_model_witness :
    ChatContext.init encLen "s" 200 (some 400) 50 "gpt-4" (1 / 2) =
      Except.ok { model := "gpt-4", temperature := 1 / 2,
                  base_system_msg := mkSystemMessage encLen "s", max_model_context := 8192,
                  min_response_tokens := 200, max_response_tokens := some 400,
                  chat_context_messages := 50, messages := [] }
  ∧ ChatContext.init encLen "s" 200 (some 400) 50 "text-davinci-003" (1 / 2) =
      Except.error ("Model text-davinci-003 not supported. Supported models are " ++
        String.intercalate ", " GPT3_MODELS ++ " and " ++
        String.intercalate ", " GPT4_MODELS) :=
  ⟨(C9_max_context_by_model encLen "s" 200 (some 400) 50 "gpt-4" (1 / 2)).2.1 (by decide),
   (C9_max_context_by_model encLen "s" 200 (some 400) 50 "text-davinci-003" (1 / 2)).2.2
     (by decide) (by decide)⟩

/-- C10: the assembler mutates neither the stored history nor the
caller-supplied dynamic context (the Python body only reads them: the history
slice is a copy and `reverse()` acts on the copy), and a second call on the
post-call state returns the identical output sequence. -/
theorem C10_assemble_idempotent_no_mutation (ctx : ChatContext) (dc : List ChatRoleMessage) :
    (assembleProc ctx dc).1 = assemble_completion_msgs ctx dc
  ∧ (assembleProc ctx dc).2.1 = ctx.messages
  ∧ (assembleProc ctx dc).2.2 = dc
  ∧ (assembleProc { ctx with messages := (assembleProc ctx dc).2.1 }
      (assembleProc ctx dc).2.2).1 = (assembleProc ctx dc).1 :=
  ⟨rfl, rfl, rfl, rfl⟩

/-- Every record yielded by the streaming generator carries
`input_tokens = sumTokens msgs + 2`. -/
theorem completion_stream_yield_input_tokens (enc : String → Nat) (ctx : ChatContext)
    (msgs : List ChatRoleMessage) (chunks : List String) (cr2 : ChatResponse)
    (h2 : List ChatRoleMessage)
    (hmem : StreamEvent.yielded cr2 h2 ∈ completion_stream enc ctx msgs chunks) :
    cr2.input_tokens = sumTokens msgs + 2 := by
  rw [completion_stream, List.mem_append] at hmem
  rcases hmem with hm | hm
  · obtain ⟨cr3, he, htok⟩ := streamLoop_events _ _ _ _ hm
    injection he with hcr _
    rw [hcr, htok]
    rfl
  · rw [List.mem_singleton] at hm
    cases hpm : price ctx.model (sumTokens msgs + 2)
        (mkAssistantMessage enc (streamText chunks)).tokens with
    | ok p =>
        rw [finalStreamEvent_ok enc ctx msgs chunks p hpm] at hm
        injection hm with hcr _
        rw [hcr]
        exact streamLoop_fst_input_tokens chunks ctx.messages (initialCR ctx msgs)
    | error e =>
        rw [finalStreamEvent_error enc ctx msgs chunks e hpm] at hm
        exact absurd hm (by simp)

/-- C3: every constructed message has
`tokens = enc(role + "\n" + effectiveText) + 4`, where the effective text is
the plain text for system/user/assistant turns and `"{prefix}: {text}"` for a
context turn; and each completion call reports
`input_tokens = (sum of tokens over the assembled input messages) + 2`, the
2-token per-request overhead applied once per call, in both batch and
streaming mode. -/
theorem C3_token_accounting (enc : String → Nat) (t p mt rt : String)
    (ctx ctx2 : ChatContext) (dc msgs : List ChatRoleMessage) (cr : ChatResponse)
    (chunks : List String) :
    (mkSystemMessage enc t).tokens = enc ("system" ++ "\n" ++ t) + 4
  ∧ (mkUserMessage enc t).tokens = enc ("user" ++ "\n" ++ t) + 4
  ∧ (mkAssistantMessage enc t).tokens = enc ("assistant" ++ "\n" ++ t) + 4
  ∧ (mkContextMessage enc p t).tokens = enc ("system" ++ "\n" ++ (p ++ ": " ++ t)) + 4
  ∧ (user_message enc ctx mt dc rt = (ctx2, Except.ok cr) →
      cr.input_tokens =
        sumTokens (assemble_completion_msgs
          { ctx with messages := mkUserMessage enc mt :: ctx.messages } dc) + 2)
  ∧ (∀ cr2 h2, StreamEvent.yielded cr2 h2 ∈ completion_stream enc ctx msgs chunks →
      cr2.input_tokens = sumTokens msgs + 2) := by
  refine ⟨rfl, rfl, rfl, rfl, ?_, ?_⟩
  · intro hu
    simp only [user_message] at hu
    cases hpm : price ctx.model
        (sumTokens (assemble_completion_msgs
          { ctx with messages := mkUserMessage enc mt :: ctx.messages } dc) + 2)
        (mkAssistantMessage enc rt).tokens with
    | ok p =>
        rw [hpm] at hu
        simp only [Prod.mk.injEq, Except.ok.injEq] at hu
        rw [← hu.2]
    | error e =>
        rw [hpm] at hu
        simp at hu
  · intro cr2 h2 hmem
    exact completion_stream_yield_input_tokens enc ctx msgs chunks cr2 h2 hmem

/-- C3 witness: the construction formulas and the batch `input_tokens`
accounting at a concrete exchange. -/
theorem C3_token_accounting_witness :
    (mkSystemMessage encLen "s").tokens = encLen ("system" ++ "\n" ++ "s") + 4
  ∧ (mkContextMessage encLen "p" "t").tokens = encLen ("system" ++ "\n" ++ ("p" ++ ": " ++ "t")) + 4
  ∧ umCR.input_tokens =
      sumTokens (assemble_completion_msgs
        { mkTestCtx "gpt-3.5-turbo" 200 with
          messages := mkUserMessage encLen "hi" :: (mkTestCtx "gpt-3.5-turbo" 200).messages }
        []) + 2 :=
  have h := C3_token_accounting encLen "s" "p" "hi" "ok" (mkTestCtx "gpt-3.5-turbo" 200)
    umRes.1 [] [] umCR []
  ⟨h.1, h.2.2.2.1, h.2.2.2.2.1 rfl⟩

/-- C7: the identifiers `gpt-3.5-turbo-0301` and `gpt-4-0314` are accepted at
session construction (as GPT-3.5-class with a 4096-token context and
GPT-4-class with 8192 respectively) but rejected by the pricing calculator, so
for a session using either model every `user_message` call that obtains a
completion fails with the unsupported-model error while computing the price —
after the new user and assistant turns have already been inserted into the
history. -/
theorem C7_accepted_at_init_rejected_at_price (enc : String → Nat) (t : String)
    (mrt : Int) (xrt : Option Int) (ccm : Nat) (temp : ℚ) (ctx : ChatContext)
    (mt rt : String) (dc : List ChatRoleMessage) :
    ChatContext.init enc t mrt xrt ccm "gpt-3.5-turbo-0301" temp =
      Except.ok { model := "gpt-3.5-turbo-0301", temperature := temp,
                  base_system_msg := mkSystemMessage enc t, max_model_context := 4096,
                  min_response_tokens := mrt, max_response_tokens := xrt,
                  chat_context_messages := ccm, messages := [] }
  ∧ ChatContext.init enc t mrt xrt ccm "gpt-4-0314" temp =
      Except.ok { model := "gpt-4-0314", temperature := temp,
                  base_system_msg := mkSystemMessage enc t, max_model_context := 8192,
                  min_response_tokens := mrt, max_response_tokens := xrt,
                  chat_context_messages := ccm, messages := [] }
  ∧ (∀ i o : Nat, price "gpt-3.5-turbo-0301" i o =
      Except.error ("model gpt-3.5-turbo-0301 not supported"))
  ∧ (∀ i o : Nat, price "gpt-4-0314" i o =
      Except.error ("model gpt-4-0314 not supported"))
  ∧ (ctx.model = "gpt-3.5-turbo-0301" ∨ ctx.model = "gpt-4-0314" →
      user_message enc ctx mt dc rt =
        ({ ctx with messages := mkAssistantMessage enc rt :: mkUserMessage enc mt ::
             ctx.messages },
         Except.error ("model " ++ ctx.model ++ " not supported"))) := by
  refine ⟨rfl, rfl, fun i o => rfl, fun i o => rfl, ?_⟩
  intro h
  rcases h with h | h <;> simp [user_message, price, h]

/-- C7 witness: a concrete `user_message` call on a `gpt-3.5-turbo-0301`
session: the result surfaces the pricing error and the post-call history
contains the new assistant and user turns. -/
theorem C7_accepted_at_init_rejected_at_price_witness :
    user_message encLen (mkTestCtx "gpt-3.5-turbo-0301" 200) "hi" [] "ok" =
      ({ mkTestCtx "gpt-3.5-turbo-0301" 200 with
         messages := mkAssistantMessage encLen "ok" :: mkUserMessage encLen "hi" ::
           (mkTestCtx "gpt-3.5-turbo-0301" 200).messages },
       Except.error ("model " ++ (mkTestCtx "gpt-3.5-turbo-0301" 200).model ++
         " not supported")) :=
  (C7_accepted_at_init_rejected_at_price encLen "s" 200 (some 400) 50 (1 / 2)
    (mkTestCtx "gpt-3.5-turbo-0301" 200) "hi" "ok" []).2.2.2.2 (Or.inl rfl)

/-- C4 (amended): in streaming mode every non-terminal event is an increment
yield carrying the unchanged history, so a consumer that stops before the
terminal state observes the history unchanged at every yield it received; when
the pricing step succeeds the terminal event is the final yield, produced with
the history extended by exactly one new assistant turn; when the pricing
calculator rejects the session's model (accepted at construction but
unsupported by `price`, e.g. `gpt-3.5-turbo-0301`), the assistant turn is
nevertheless inserted at the terminal transition and the pricing error then
propagates without the terminal yield being produced.  `user_message_stream`
is the same generator run after inserting the user turn and assembling. -/
theorem C4_history_updated_only_at_done (enc : String → Nat) (ctx : ChatContext)
    (msgs : List ChatRoleMessage) (chunks : List String) (mt : String)
    (dc : List ChatRoleMessage) :
    (∀ e ∈ (completion_stream enc ctx msgs chunks).dropLast,
       ∃ cr2, e = StreamEvent.yielded cr2 ctx.messages)
  ∧ (∀ k, k < (completion_stream enc ctx msgs chunks).length →
       ∀ e ∈ (completion_stream enc ctx msgs chunks).take k,
         ∃ cr2, e = StreamEvent.yielded cr2 ctx.messages)
  ∧ (∀ p, price ctx.model (sumTokens msgs + 2)
        (mkAssistantMessage enc (streamText chunks)).tokens = Except.ok p →
      ∃ cr2, (completion_stream enc ctx msgs chunks).getLast? =
        some (StreamEvent.yielded cr2
          (mkAssistantMessage enc (streamText chunks) :: ctx.messages)))
  ∧ (∀ e2, price ctx.model (sumTokens msgs + 2)
        (mkAssistantMessage enc (streamText chunks)).tokens = Except.error e2 →
      (completion_stream enc ctx msgs chunks).getLast? =
        some (StreamEvent.raised e2
          (mkAssistantMessage enc (streamText chunks) :: ctx.messages)))
  ∧ user_message_stream enc ctx mt dc chunks =
      completion_stream enc { ctx with messages := mkUserMessage enc mt :: ctx.messages }
        (assemble_completion_msgs
          { ctx with messages := mkUserMessage enc mt :: ctx.messages } dc) chunks := by
  refine ⟨?_, ?_, ?_, ?_, rfl⟩
  · intro e he
    rw [completion_stream, List.dropLast_concat] at he
    obtain ⟨cr2, he2, _⟩ := streamLoop_events _ _ _ _ he
    exact ⟨cr2, he2⟩
  · intro k hk e he
    rw [completion_stream] at he hk
    rw [List.length_append, List.length_singleton] at hk
    have hkle : k ≤ ((streamLoop ctx.messages (initialCR ctx msgs) chunks).2).length := by
      omega
    rw [List.take_append_of_le_length hkle] at he
    have he2 := List.take_subset _ _ he
    obtain ⟨cr2, he3, _⟩ := streamLoop_events _ _ _ _ he2
    exact ⟨cr2, he3⟩
  · intro p hp
    rw [completion_stream, List.getLast?_concat, finalStreamEvent_ok enc ctx msgs chunks p hp]
    exact ⟨_, rfl⟩
  · intro e2 hp
    rw [completion_stream, List.getLast?_concat,
      finalStreamEvent_error enc ctx msgs chunks e2 hp]

/-- C4 witness: a concrete stream on a `gpt-3.5-turbo-0301` session: the
events received before the terminal transition all carry the unchanged
history, and the terminal event is the escaping pricing error carrying the
history extended by the assistant turn. -/
theorem C4_history_updated_only_at_done_witness :
    (∀ e ∈ (completion_stream encLen (mkTestCtx "gpt-3.5-turbo-0301" 200) [] ["a"]).take 1,
       ∃ cr2, e = StreamEvent.yielded cr2 (mkTestCtx "gpt-3.5-turbo-0301" 200).messages)
  ∧ (completion_stream encLen (mkTestCtx "gpt-3.5-turbo-0301" 200) [] ["a"]).getLast? =
      some (StreamEvent.raised ("model gpt-3.5-turbo-0301 not supported")
        (mkAssistantMessage encLen (streamText ["a"]) ::
          (mkTestCtx "gpt-3.5-turbo-0301" 200).messages)) :=
  ⟨(C4_history_updated_only_at_done encLen (mkTestCtx "gpt-3.5-turbo-0301" 200) [] ["a"]
      "x" []).2.1 1 (by decide),
   (C4_history_updated_only_at_done encLen (mkTestCtx "gpt-3.5-turbo-0301" 200) [] ["a"]
      "x" []).2.2.2.1 ("model gpt-3.5-turbo-0301 not supported") rfl⟩

/-- C4 counterexample: the claim as stated says history gains an assistant
turn only when the terminal yield is produced.  On a `gpt-3.5-turbo-0301`
session (accepted by the constructor, rejected by `price`) a completed stream
produces no terminal yield — the only yield carries the unchanged history —
yet the generator's final state contains a new assistant turn: the pricing
error escapes after the insertion, so history changes without the terminal
yield being produced. -/
theorem C4_counterexample :
    ChatContext.init encLen "s" 200 (some 400) 50 "gpt-3.5-turbo-0301" (1 / 2) =
      Except.ok (mkTestCtx "gpt-3.5-turbo-0301" 200)
  ∧ yieldedHistories
      (user_message_stream encLen (mkTestCtx "gpt-3.5-turbo-0301" 200) "hi" [] ["a"]) =
      [[mkUserMessage encLen "hi"]]
  ∧ lastEventHistory
      (user_message_stream encLen (mkTestCtx "gpt-3.5-turbo-0301" 200) "hi" [] ["a"]) =
      some [mkAssistantMessage encLen "a", mkUserMessage encLen "hi"]
  ∧ ([mkAssistantMessage encLen "a", mkUserMessage encLen "hi"] : List ChatRoleMessage) ≠
      [mkUserMessage encLen "hi"] :=
  ⟨rfl, by decide, by decide, by decide⟩

/-- C5 (code bug): evaluating the streaming generator at a single-increment
stream on a default GPT-3.5 session: the yielded `delta` values are
`["a", "a"]` — the terminal yield repeats the last increment's `delta` instead
of an empty one — so their concatenation is `"aa"` while the final `text` is
`"a"`.  The claim (and the repository's own stream example, which writes
`delta` on every yield) expects the concatenation of deltas over all yields to
equal the final text. -/
theorem C5_delta_concat_failing_eval :
    ChatContext.init encLen "s" 200 (some 400) 50 "gpt-3.5-turbo" (1 / 2) =
      Except.ok (mkTestCtx "gpt-3.5-turbo" 200)
  ∧ yieldDeltas (user_message_stream encLen (mkTestCtx "gpt-3.5-turbo" 200) "hi" [] ["a"]) =
      ["a", "a"]
  ∧ lastYieldedText
      (user_message_stream encLen (mkTestCtx "gpt-3.5-turbo" 200) "hi" [] ["a"]) = some "a"
  ∧ String.join ["a", "a"] = "aa"
  ∧ ("aa" : String) ≠ "a" :=
  ⟨rfl, by decide, by decide, rfl, by decide⟩

/-- Skipping `j` leading transient attempts: the retry combinator re-issues the
call with `j` fewer units of fuel, `j` attempts spent and `j` delays slept. -/
theorem retryRun_skip {α : Type} (action : Nat → ProviderOutcome α) (j : Nat) :
    ∀ fuel s : Nat, j < fuel →
      (∀ i, i < j → ∃ te, action (s + i) = ProviderOutcome.transient te) →
      retryRun action fuel s =
        ((retryRun action (fuel - j) (s + j)).1,
         (retryRun action (fuel - j) (s + j)).2.1,
         (j : ℚ) * RETRY_DELAY + (retryRun action (fuel - j) (s + j)).2.2) := by
  induction j with
  | zero =>
    intro fuel s _ _
    simp
  | succ j ih =>
    intro fuel s hj ht
    obtain ⟨te, hte⟩ := ht 0 (Nat.succ_pos j)
    rw [Nat.add_zero] at hte
    obtain ⟨f, rfl⟩ : ∃ f, fuel = f + 1 := ⟨fuel - 1, by omega⟩
    have hf : f ≠ 0 := by omega
    rw [retryRun, hte]
    simp only [hf, if_false]
    have ih2 := ih f (s + 1) (by omega) (fun i hi => by
      obtain ⟨te2, hte2⟩ := ht (i + 1) (by omega)
      exact ⟨te2, by rwa [show s + (i + 1) = s + 1 + i by omega] at hte2⟩)
    rw [show s + 1 + j = s + (j + 1) by omega, show f - j = f + 1 - (j + 1) by omega] at ih2
    rw [ih2]
    refine Prod.ext rfl (Prod.ext rfl ?_)
    push_cast
    ring

/-- C8 (spec-modelled): for both completion modes the provider call is wrapped
in the retry combinator with a ceiling of `RETRY_TRIES = 10` attempts and a
fixed `RETRY_DELAY = 0.05` s between attempts: a run of transient faults is
retried with the identical request until success or the ceiling, after which
the transient error is surfaced; an invalid-request error is surfaced
immediately at the attempt where it occurs and is never retried. -/
theorem C8_retry_policy {α : Type} (action : Nat → ProviderOutcome α) (j : Nat)
    (v : α) (e : String)
    (ht : ∀ i, i < j → ∃ te, action i = ProviderOutcome.transient te) :
    (j < RETRY_TRIES → action j = ProviderOutcome.ok v →
      retryRun action RETRY_TRIES 0 = (RetryResult.ok v, j + 1, (j : ℚ) * RETRY_DELAY))
  ∧ (j < RETRY_TRIES → action j = ProviderOutcome.invalidRequest e →
      retryRun action RETRY_TRIES 0 = (RetryResult.failed e, j + 1, (j : ℚ) * RETRY_DELAY))
  ∧ (j = RETRY_TRIES - 1 → action j = ProviderOutcome.transient e →
      retryRun action RETRY_TRIES 0 =
        (RetryResult.failed e, RETRY_TRIES, ((RETRY_TRIES : ℚ) - 1) * RETRY_DELAY)) := by
  refine ⟨fun hj hja => ?_, fun hj hja => ?_, fun hj hja => ?_⟩
  · have hskip := retryRun_skip action j RETRY_TRIES 0 hj
      (fun i hi => by simpa using ht i hi)
    simp only [Nat.zero_add] at hskip
    obtain ⟨m, hm⟩ : ∃ m, RETRY_TRIES - j = m + 1 := ⟨RETRY_TRIES - j - 1, by omega⟩
    rw [hskip, hm, retryRun, hja]
    simp
  · have hskip := retryRun_skip action j RETRY_TRIES 0 hj
      (fun i hi => by simpa using ht i hi)
    simp only [Nat.zero_add] at hskip
    obtain ⟨m, hm⟩ : ∃ m, RETRY_TRIES - j = m + 1 := ⟨RETRY_TRIES - j - 1, by omega⟩
    rw [hskip, hm, retryRun, hja]
    simp
  · have hj9 : j = 9 := by simpa [RETRY_TRIES] using hj
    subst hj9
    have hjlt : (9 : Nat) < RETRY_TRIES := by simp [RETRY_TRIES]
    have hskip := retryRun_skip action 9 RETRY_TRIES 0 hjlt
      (fun i hi => by simpa using ht i hi)
    simp only [Nat.zero_add] at hskip
    have hm : RETRY_TRIES - 9 = 0 + 1 := by simp [RETRY_TRIES]
    rw [hskip, hm, retryRun, hja]
    simp only [if_pos rfl]
    simp only [RETRY_TRIES]
    norm_num

/-- C8 witness: two rate-limit faults followed by success are retried through
with two delays, surfacing the success on the third attempt. -/
theorem C8_retry_policy_witness :
    retryRun actionW RETRY_TRIES 0 =
      (RetryResult.ok "done", 3, ((2 : Nat) : ℚ) * RETRY_DELAY) :=
  (C8_retry_policy actionW 2 "done" "payload too large"
    (fun i hi => by interval_cases i <;> exact ⟨"rate limited", rfl⟩)).1 (by decide) rfl

end Chatstack
